import Mathlib

/-
Verification development for the mpwik water-outage checker.

The repository has two variants of the same pipeline:
  * src/unnamed/part_000 : two categories (emergency + planned), one handler
    that processes both; rendered entries are sorted before joining.
  * src/index.js : single category (planned only); a header line is pushed
    unconditionally into the entry list and entries are joined in document
    order (no sort); the handler returns statusCode 500 on fetch failure.

Shallow embedding conventions:
  * HTML documents are modelled post-parse, restricted to exactly the parts
    the cheerio selectors touch: a planned page is a list of .dzielnica
    blocks (District), each carrying the h3.dzielnicaopen text and the
    .awarie tbody tr rows; an emergency page is an optional #awarie table
    holding its tbody tr rows. A row is its td cells plus a headrow-class
    flag; a cell carries its first text node, its full text, and the inner
    HTML of a .zbior descendant when one exists.
  * JS string operations (trim, split on a literal, startsWith, the default
    Array.prototype.sort comparator) are re-implemented structurally over
    List Char so that concrete runs reduce inside the kernel.
  * Async I/O (axios fetch, DynamoDB get/put, Telegram post) is modelled by
    explicit success flags and state passing: fetch result is an Option
    document, the store is an Option String keyed per category, and each
    run returns an Outcome, an effect trace (notification message passed to
    sendTelegramMessage, value passed to the DynamoDB put) and the store
    state after the run. Every catch block in the source swallows its error
    and only logs, which is why the flags never alter control flow except
    where the source inspects the returned sentinel (null / empty string).
-/

set_option linter.unusedVariables false

namespace Mpwik

/-! JS string primitives, modelled structurally over List Char. -/

/-- JS String.prototype.trim: drop leading and trailing whitespace. -/
def jsTrim (s : String) : String :=
  ⟨((s.data.dropWhile Char.isWhitespace).reverse.dropWhile Char.isWhitespace).reverse⟩

/-- JS String.prototype.startsWith. -/
def jsStartsWith (s p : String) : Bool := p.data.isPrefixOf s.data

/-- Fuel-driven splitter for JS s.split given a 4-character separator list.
The fuel starts at the length of the input, which each step strictly
decreases, so the base case for zero fuel is never hit on a nonempty rest. -/
def splitSepAux (sep : List Char) : Nat → List Char → List Char → List (List Char)
  | 0, acc, rest => [acc.reverse ++ rest]
  | fuel + 1, acc, l =>
    match l with
    | [] => [acc.reverse]
    | c :: rest =>
      if l.take sep.length = sep then
        acc.reverse :: splitSepAux sep fuel [] (l.drop sep.length)
      else
        splitSepAux sep fuel (c :: acc) rest

/-- JS s.split given a separator string. The parsers only use it with the
literal line-break marker. -/
def jsSplit (s sep : String) : List String :=
  (splitSepAux sep.data s.data.length [] s.data).map (fun l => ⟨l⟩)

/-- The default JS Array.prototype.sort comparator on strings compares
code units left to right; for the BMP text handled here this is plain
lexicographic order on the character lists. -/
def charListLe : List Char → List Char → Bool
  | [], _ => true
  | _ :: _, [] => false
  | a :: as, b :: bs =>
    if a < b then true
    else if b < a then false
    else charListLe as bs

/-- The sort order used by the JS default string sort, as a relation. -/
def StrLeR (a b : String) : Prop := charListLe a.data b.data = true

instance strLeRDecidable : DecidableRel StrLeR :=
  fun a b => inferInstanceAs (Decidable (charListLe a.data b.data = true))

/-- JS array.sort() on an array of strings. -/
def sortStrings (l : List String) : List String := List.insertionSort StrLeR l

/-! The document model: what the cheerio selectors observe. -/

/-- One td cell: its first text node, its full text, and the inner HTML of a
.zbior descendant when present. -/
structure Cell where
  firstText : String
  text : String
  zbiorHtml : Option String
deriving DecidableEq, Inhabited

/-- One tbody tr row: whether it carries the headrow class, and its td cells. -/
structure Row where
  headrow : Bool
  cells : List Cell
deriving DecidableEq, Inhabited

/-- One .dzielnica block: the h3.dzielnicaopen text and the .awarie tbody tr
rows inside it. -/
structure District where
  headerText : String
  rows : List Row
deriving DecidableEq, Inhabited

/-- A parsed planned-outages page: its .dzielnica blocks in document order. -/
structure PlannedDoc where
  districts : List District
deriving DecidableEq, Inhabited

/-- A parsed emergency-outages page: the #awarie table rows when the table
exists. -/
structure EmergencyDoc where
  table : Option (List Row)
deriving DecidableEq, Inhabited

/-! Configuration constants from src/unnamed/part_000. -/

def DISTRICT_NAME : String := "Warszawa URSUS"

def emergencyHeader : String := "Wyłączenia awaryjne"

def plannedHeader : String := "Wyłączenia planowane"

/-! The parsers of src/unnamed/part_000. -/

/-- addressesDiv.html().split given the break marker, then trim each piece,
drop blanks, and sort. -/
def splitAddresses (html : String) : List String :=
  sortStrings (((jsSplit html "<br>").map jsTrim).filter (fun a => a ≠ ""))

/-- The bullet lines appended for the sorted sub-addresses of one record. -/
def addressLines (addrs : List String) : String :=
  String.join (addrs.map (fun a => "- " ++ a ++ "\n"))

/-- In the planned parser the .zbior lookup runs over the whole row, so the
first cell holding one (in document order) wins. -/
def rowZbior (cells : List Cell) : Option String :=
  (cells.filterMap Cell.zbiorHtml).head?

/-- One rendered planned entry, from parseOutages in src/unnamed/part_000:
place from the first text node of cell 0, start from cell 1, end from
cell 2, then the sorted sub-address bullet lines when a .zbior is present. -/
def plannedEntry (cells : List Cell) : String :=
  let place := jsTrim (cells.getD 0 default).firstText
  let fromT := jsTrim (cells.getD 1 default).text
  let toT := jsTrim (cells.getD 2 default).text
  let entry := "<strong>" ++ place ++ "</strong> (od " ++ fromT ++ " do " ++ toT ++ ")\n"
  match rowZbior cells with
  | some h => entry ++ addressLines (splitAddresses h)
  | none => entry

/-- The planned row selection: tbody tr without the headrow class, and only
rows with more than 4 cells. -/
def plannedRows (d : District) : List Row :=
  (d.rows.filter (fun r => !r.headrow)).filter (fun r => r.cells.length > 4)

/-- The rendered entries of one matching district, in document order. -/
def districtEntries (d : District) : List String :=
  (plannedRows d).map (fun r => plannedEntry r.cells)

/-- outages.sort(); outages.join given the newline separator. -/
def canonicalize (entries : List String) : String :=
  String.intercalate "\n" (sortStrings entries)

/-- parseOutages of src/unnamed/part_000: walk the .dzielnica blocks; every
block whose trimmed header starts with the district name overwrites the
output with its sorted, joined entries. -/
def parseOutages (doc : PlannedDoc) : String :=
  doc.districts.foldl
    (fun output d =>
      if jsStartsWith (jsTrim d.headerText) DISTRICT_NAME then
        canonicalize (districtEntries d)
      else output)
    ""

/-- One rendered emergency entry, from parseEmergencyOutages: address from
the first text node of cell 0, outage time from cell 2, expected resolution
from cell 3, status from cell 4 with the w-toku mapping, and the sub-address
bullet lines from the .zbior of cell 1. -/
def emergencyEntry (cells : List Cell) : String :=
  let address := jsTrim (cells.getD 0 default).firstText
  let outageTime := jsTrim (cells.getD 2 default).text
  let expectedResolution := jsTrim (cells.getD 3 default).text
  let status := jsTrim (cells.getD 4 default).text
  let statusText := if status = "w toku" then "w trakcie" else status
  let timeInfo :=
    if expectedResolution ≠ "" then
      "(od " ++ outageTime ++ " do " ++ expectedResolution ++ ")"
    else
      "(od " ++ outageTime ++ ", czas usunięcia nieznany)"
  let entry := "<strong>" ++ address ++ "</strong> " ++ timeInfo ++ " - " ++ statusText ++ "\n"
  match (cells.getD 1 default).zbiorHtml with
  | some h => entry ++ addressLines (splitAddresses h)
  | none => entry

/-- The emergency row selection: rows with at least 5 cells. -/
def emergencyRows (rows : List Row) : List Row :=
  rows.filter (fun r => r.cells.length ≥ 5)

/-- parseEmergencyOutages of src/unnamed/part_000: empty output when the
#awarie table is absent, otherwise the sorted, joined entries of the
qualifying rows. -/
def parseEmergencyOutages (doc : EmergencyDoc) : String :=
  match doc.table with
  | none => ""
  | some rows => canonicalize ((emergencyRows rows).map (fun r => emergencyEntry r.cells))

/-! The orchestrator of src/unnamed/part_000, with I/O success made explicit. -/

/-- Success flags for the three fallible I/O steps of one category run; the
fetch result is carried separately as an Option document. -/
structure IOFlags where
  getOk : Bool
  putOk : Bool
  notifyOk : Bool
deriving DecidableEq

/-- The observable side effects of one category run: the message passed to
sendTelegramMessage and whether that send succeeded (the catch block only
logs), and the value passed to the DynamoDB put and whether it succeeded
(that catch block only logs too). -/
structure Effects where
  notifySent : Option String := none
  notifyOk : Bool := true
  putAttempt : Option String := none
  putOk : Bool := true
deriving DecidableEq

/-- The per-category result, read off the log branches of processOutages:
fetch failure, no outages found, no changes detected, or new data detected. -/
inductive Outcome
  | fetchFailed
  | noData
  | unchanged
  | updated
deriving DecidableEq

/-- getPreviousOutages: a successful get yields the stored string, or the
empty string when no item exists; the catch branch returns null, modelled
as none. -/
def getPreviousOutages (getOk : Bool) (stored : Option String) : Option String :=
  if getOk then some (stored.getD "") else none

/-- processOutages of src/unnamed/part_000 for one category, parameterised
by that category's parser and header. Returns the outcome, the effect
trace, and the store contents after the run. The comparison is the JS
strict equality currentOutagesText === previousOutages, where the latter
may be the null sentinel. -/
def processOutages {α : Type} (parse : α → String) (header : String)
    (fetched : Option α) (flags : IOFlags) (stored : Option String) :
    Outcome × Effects × Option String :=
  match fetched with
  | none => (.fetchFailed, {}, stored)
  | some doc =>
    let currentOutagesText := parse doc
    if currentOutagesText = "" then (.noData, {}, stored)
    else
      let previousOutages := getPreviousOutages flags.getOk stored
      if previousOutages = some currentOutagesText then (.unchanged, {}, stored)
      else
        (.updated,
         { notifySent := some ("<b>" ++ header ++ "</b>\n" ++ currentOutagesText),
           notifyOk := flags.notifyOk,
           putAttempt := some currentOutagesText,
           putOk := flags.putOk },
         if flags.putOk then some currentOutagesText else stored)

/-- The Lambda return value. -/
structure HandlerResult where
  statusCode : Nat
  body : String
deriving DecidableEq

/-- The handler of src/unnamed/part_000: process the emergency category,
then the planned category (each with its own DynamoDB key, hence its own
store slot), and always return 200. -/
def handler (eDoc : Option EmergencyDoc) (pDoc : Option PlannedDoc)
    (eFlags pFlags : IOFlags) (eStored pStored : Option String) :
    HandlerResult × (Outcome × Effects × Option String) × (Outcome × Effects × Option String) :=
  (⟨200, "Check complete."⟩,
   processOutages parseEmergencyOutages emergencyHeader eDoc eFlags eStored,
   processOutages parseOutages plannedHeader pDoc pFlags pStored)

/-! The single-category variant, src/index.js. -/

namespace Index

/-- One rendered entry of parseOutages in src/index.js: same cell layout as
the planned parser of the other variant, but the time range opens with the
z preposition instead of od. -/
def entryFor (cells : List Cell) : String :=
  let place := jsTrim (cells.getD 0 default).firstText
  let fromT := jsTrim (cells.getD 1 default).text
  let toT := jsTrim (cells.getD 2 default).text
  let entry := "<strong>" ++ place ++ "</strong> (z " ++ fromT ++ " do " ++ toT ++ ")\n"
  match rowZbior cells with
  | some h => entry ++ addressLines (splitAddresses h)
  | none => entry

/-- parseOutages of src/index.js: for a matching district the header line is
pushed first, the qualifying rows follow in document order, and the list is
joined on newlines without any sort. -/
def parseOutages (doc : PlannedDoc) : String :=
  doc.districts.foldl
    (fun output d =>
      if jsStartsWith (jsTrim d.headerText) DISTRICT_NAME then
        String.intercalate "\n"
          ("Wyłączenia planowane:\n\n" :: (plannedRows d).map (fun r => entryFor r.cells))
      else output)
    ""

/-- The handler of src/index.js: 500 on fetch failure, 200 with the no-data
body on empty extraction, 200 with the no-change body on equality, and
otherwise notify (the raw report, no header wrapper), then persist, then 200. -/
def handler (fetched : Option PlannedDoc) (flags : IOFlags) (stored : Option String) :
    HandlerResult × Effects × Option String :=
  match fetched with
  | none => (⟨500, "Failed to fetch HTML content."⟩, {}, stored)
  | some doc =>
    let currentOutagesText := parseOutages doc
    if currentOutagesText = "" then (⟨200, "No outages found."⟩, {}, stored)
    else
      let previousOutages := getPreviousOutages flags.getOk stored
      if previousOutages = some currentOutagesText then
        (⟨200, "No new water outages."⟩, {}, stored)
      else
        (⟨200, "New water outage data found, notified, and saved."⟩,
         { notifySent := some currentOutagesText,
           notifyOk := flags.notifyOk,
           putAttempt := some currentOutagesText,
           putOk := flags.putOk },
         if flags.putOk then some currentOutagesText else stored)

end Index

/-! Concrete sample documents used by witnesses and counterexamples. -/

/-- A cell whose full text is the given string and that holds nothing else. -/
def textCell (t : String) : Cell := ⟨"", t, none⟩

/-- A five-cell row in the layout both parsers read: first text node of
cell 0, then the texts of cells 1 to 4. -/
def rowCells (c0 c1 c2 c3 c4 : String) : List Cell :=
  [⟨c0, "", none⟩, textCell c1, textCell c2, textCell c3, textCell c4]

/-- A qualifying emergency row: in-progress status, unknown resolution, and
two unsorted sub-addresses in its second cell. -/
def sampleEmergencyRow : Row :=
  ⟨false,
   [⟨"Popularna", "", none⟩, ⟨"", "", some "Olesin 1<br>Adamowa 2"⟩,
    textCell "2025-07-01 08:00", textCell "", textCell "w toku"]⟩

/-- An emergency page whose #awarie table holds one qualifying row. -/
def sampleEmergencyDoc : EmergencyDoc := ⟨some [sampleEmergencyRow]⟩

/-- A qualifying planned row for place A. -/
def rowA : Row := ⟨false, rowCells "Aleja A" "2025-07-01" "2025-07-02" "" ""⟩

/-- A qualifying planned row for place B. -/
def rowB : Row := ⟨false, rowCells "Bema B" "2025-07-03" "2025-07-04" "" ""⟩

/-- A planned page whose matching district lists row A before row B. -/
def docAB : PlannedDoc := ⟨[⟨"Warszawa URSUS", [rowA, rowB]⟩]⟩

/-- The same page with the two rows in the opposite document order. -/
def docBA : PlannedDoc := ⟨[⟨"Warszawa URSUS", [rowB, rowA]⟩]⟩

/-- A planned page with no district matching the target prefix. -/
def docNoUrsus : PlannedDoc := ⟨[⟨"Warszawa Mokotów", [rowA]⟩]⟩

/-- A three-cell decoration row, below both category minimums. -/
def shortRow : Row := ⟨false, [textCell "a", textCell "b", textCell "c"]⟩

/-- A matching district whose only rows are a headrow and a three-cell
decoration row, so no row qualifies. -/
def rowlessDistrict : District :=
  ⟨"Warszawa URSUS", [⟨true, rowCells "x" "y" "z" "" ""⟩, shortRow]⟩

end Mpwik

namespace Mpwik

/-! Order-theoretic facts about the JS sort comparator. -/

theorem charListLe_total (a b : List Char) : charListLe a b = true ∨ charListLe b a = true := by
  induction a generalizing b with
  | nil => left; rfl
  | cons x xs ih =>
    cases b with
    | nil => right; rfl
    | cons y ys =>
      rcases lt_trichotomy x y with h | h | h
      · left; simp [charListLe, h]
      · subst h
        rcases ih ys with h2 | h2
        · left; simp [charListLe, h2, lt_irrefl]
        · right; simp [charListLe, h2, lt_irrefl]
      · right; simp [charListLe, h]

theorem charListLe_not_lt {a b : List Char} (hab : charListLe a b = true) :
    ∀ {x y : Char} {xs ys : List Char}, a = x :: xs → b = y :: ys → ¬ y < x := by
  intro x y xs ys ha hb hlt
  subst ha; subst hb
  simp [charListLe, hlt, asymm hlt] at hab

theorem charListLe_trans {a b c : List Char} (hab : charListLe a b = true)
    (hbc : charListLe b c = true) : charListLe a c = true := by
  induction a generalizing b c with
  | nil => rfl
  | cons x xs ih =>
    cases b with
    | nil => simp [charListLe] at hab
    | cons y ys =>
      cases c with
      | nil => simp [charListLe] at hbc
      | cons z zs =>
        rcases lt_trichotomy x y with h1 | h1 | h1
        · rcases lt_trichotomy y z with h2 | h2 | h2
          · simp [charListLe, lt_trans h1 h2]
          · subst h2; simp [charListLe, h1]
          · exact absurd h2 (charListLe_not_lt hbc rfl rfl)
        · subst h1
          rcases lt_trichotomy x z with h2 | h2 | h2
          · simp [charListLe, h2]
          · subst h2
            simp [charListLe, lt_irrefl] at hab hbc ⊢
            exact ih hab hbc
          · exact absurd h2 (charListLe_not_lt hbc rfl rfl)
        · exact absurd h1 (charListLe_not_lt hab rfl rfl)

theorem charListLe_antisymm {a b : List Char} (hab : charListLe a b = true)
    (hba : charListLe b a = true) : a = b := by
  induction a generalizing b with
  | nil =>
    cases b with
    | nil => rfl
    | cons y ys => simp [charListLe] at hba
  | cons x xs ih =>
    cases b with
    | nil => simp [charListLe] at hab
    | cons y ys =>
      rcases lt_trichotomy x y with h | h | h
      · exact absurd h (charListLe_not_lt hba rfl rfl)
      · subst h
        simp [charListLe, lt_irrefl] at hab hba
        rw [ih hab hba]
      · exact absurd h (charListLe_not_lt hab rfl rfl)

theorem strLeR_antisymm {a b : String} (hab : StrLeR a b) (hba : StrLeR b a) : a = b := by
  cases a; cases b
  exact congrArg String.mk (charListLe_antisymm hab hba)

theorem sortStrings_perm (l : List String) : (sortStrings l).Perm l :=
  List.perm_insertionSort _ l

theorem sortStrings_sorted (l : List String) : (sortStrings l).Sorted StrLeR :=
  @List.sorted_insertionSort String StrLeR strLeRDecidable
    ⟨fun a b => charListLe_total a.data b.data⟩
    ⟨fun _ _ _ h1 h2 => charListLe_trans h1 h2⟩ l

theorem sortStrings_congr {l1 l2 : List String} (h : l1.Perm l2) :
    sortStrings l1 = sortStrings l2 :=
  @List.eq_of_perm_of_sorted String StrLeR ⟨fun _ _ => strLeR_antisymm⟩ _ _
    ((sortStrings_perm l1).trans (h.trans (sortStrings_perm l2).symm))
    (sortStrings_sorted l1) (sortStrings_sorted l2)

/-! Unfolding helpers for the parsers on single-district pages. -/

theorem parseOutages_single (d : District) :
    parseOutages ⟨[d]⟩ =
      if jsStartsWith (jsTrim d.headerText) DISTRICT_NAME then
        canonicalize (districtEntries d)
      else "" := rfl

theorem parseEmergencyOutages_some (rows : List Row) :
    parseEmergencyOutages ⟨some rows⟩ =
      canonicalize ((emergencyRows rows).map (fun r => emergencyEntry r.cells)) := rfl

theorem index_parseOutages_single (d : District) :
    Index.parseOutages ⟨[d]⟩ =
      if jsStartsWith (jsTrim d.headerText) DISTRICT_NAME then
        String.intercalate "\n"
          ("Wyłączenia planowane:\n\n" :: (plannedRows d).map (fun r => Index.entryFor r.cells))
      else "" := rfl

theorem canonicalize_nil : canonicalize ([] : List String) = "" := rfl

theorem districtEntries_perm {h : String} {rows1 rows2 : List Row} (hp : rows1.Perm rows2) :
    (districtEntries ⟨h, rows1⟩).Perm (districtEntries ⟨h, rows2⟩) := by
  simp only [districtEntries, plannedRows]
  exact ((hp.filter _).filter _).map _

theorem emergencyEntries_perm {rows1 rows2 : List Row} (hp : rows1.Perm rows2) :
    ((emergencyRows rows1).map (fun r => emergencyEntry r.cells)).Perm
      ((emergencyRows rows2).map (fun r => emergencyEntry r.cells)) := by
  simp only [emergencyRows]
  exact (hp.filter _).map _

theorem parseOutages_no_match (ds : List District)
    (hall : ∀ d ∈ ds, jsStartsWith (jsTrim d.headerText) DISTRICT_NAME = false) :
    parseOutages ⟨ds⟩ = "" := by
  induction ds with
  | nil => rfl
  | cons d rest ih =>
    have hd := hall d (by simp)
    simp only [parseOutages, List.foldl_cons]
    rw [if_neg (by simp [hd])]
    exact ih (fun d2 hm => hall d2 (by simp [hm]))

theorem index_parseOutages_no_match (ds : List District)
    (hall : ∀ d ∈ ds, jsStartsWith (jsTrim d.headerText) DISTRICT_NAME = false) :
    Index.parseOutages ⟨ds⟩ = "" := by
  induction ds with
  | nil => rfl
  | cons d rest ih =>
    have hd := hall d (by simp)
    simp only [Index.parseOutages, List.foldl_cons]
    rw [if_neg (by simp [hd])]
    exact ih (fun d2 hm => hall d2 (by simp [hm]))

/-! The claims. -/

/-- Claim C1 (refuted by the code, a code bug): the spec requires a failed
state-store read to end the run as Failed with no comparison, notification
or write. In the code, getPreviousOutages catches the error and returns the
null sentinel, and processOutages never checks for it: null compares
unequal to the non-empty current report, so the run sends the notification
and persists the current report. This theorem evaluates the run at such a
failing input: the read fails, yet the outcome is the new-data branch, a
message is sent, and the store is overwritten. -/
theorem c1_store_read_failure_notifies_anyway :
    getPreviousOutages false (some "previous") = none ∧
    processOutages parseEmergencyOutages emergencyHeader (some sampleEmergencyDoc)
        ⟨false, true, true⟩ (some "previous") =
      (Outcome.updated,
       { notifySent := some ("<b>" ++ emergencyHeader ++ "</b>\n"
           ++ parseEmergencyOutages sampleEmergencyDoc),
         notifyOk := true,
         putAttempt := some (parseEmergencyOutages sampleEmergencyDoc),
         putOk := true },
       some (parseEmergencyOutages sampleEmergencyDoc)) :=
  ⟨rfl, rfl⟩

/-- Claim C2 (amended): in the two-category variant the canonicalization is
order-independent — for any permutation of a matching district's rows,
parseOutages and parseEmergencyOutages produce the identical string, and
the sub-addresses of each record are emitted in sorted order. (The
single-category variant of src/index.js joins entries in document order
without sorting, so there the output does depend on row order; see the
counterexample.) -/
theorem c2_canonicalization_order_independent :
    (∀ (h : String) (rows1 rows2 : List Row), rows1.Perm rows2 →
      parseOutages ⟨[⟨h, rows1⟩]⟩ = parseOutages ⟨[⟨h, rows2⟩]⟩) ∧
    (∀ (rows1 rows2 : List Row), rows1.Perm rows2 →
      parseEmergencyOutages ⟨some rows1⟩ = parseEmergencyOutages ⟨some rows2⟩) ∧
    (∀ html : String, (splitAddresses html).Sorted StrLeR) := by
  refine ⟨?_, ?_, ?_⟩
  · intro h rows1 rows2 hp
    rw [parseOutages_single, parseOutages_single]
    by_cases hj : jsStartsWith (jsTrim h) DISTRICT_NAME = true
    · simp only [hj, if_true]
      simp only [canonicalize]
      exact congrArg _ (sortStrings_congr (districtEntries_perm hp))
    · simp [hj]
  · intro rows1 rows2 hp
    rw [parseEmergencyOutages_some, parseEmergencyOutages_some]
    simp only [canonicalize]
    exact congrArg _ (sortStrings_congr (emergencyEntries_perm hp))
  · intro html
    exact sortStrings_sorted _

/-- Witness for C2: the concrete two-row page of the spec scenario produces
the same canonical report in either document order. -/
theorem c2_canonicalization_order_independent_witness :
    parseOutages docAB = parseOutages docBA :=
  c2_canonicalization_order_independent.1 "Warszawa URSUS" [rowA, rowB] [rowB, rowA]
    (List.Perm.swap rowB rowA [])

/-- Counterexample for C2: the claim also cites parseOutages of
src/index.js, which joins entries in document order without sorting, so
permuting the two rows of the same page changes the output. -/
theorem c2_counterexample :
    [rowA, rowB].Perm [rowB, rowA] ∧
    Index.parseOutages docAB ≠ Index.parseOutages docBA :=
  ⟨List.Perm.swap rowB rowA [], by decide⟩

/-- Claim C3: when the current report equals the persisted one the outcome
is the no-change branch with no notification and no write; and running the
orchestrator twice against the same document (first run starting from a
different persisted state, both get calls and the first put succeeding)
gives the no-change outcome on the second run, with the single notification
happening on the first run only. -/
theorem c3_unchanged_is_idempotent {α : Type} (parse : α → String) (header : String)
    (doc : α) (flags1 flags2 : IOFlags) (stored : Option String) :
    (parse doc ≠ "" → getPreviousOutages flags1.getOk stored = some (parse doc) →
      processOutages parse header (some doc) flags1 stored = (.unchanged, {}, stored)) ∧
    (parse doc ≠ "" → flags1.getOk = true → flags1.putOk = true → flags2.getOk = true →
      stored.getD "" ≠ parse doc →
      (processOutages parse header (some doc) flags1 stored).2.1.notifySent =
        some ("<b>" ++ header ++ "</b>\n" ++ parse doc) ∧
      processOutages parse header (some doc) flags2
          (processOutages parse header (some doc) flags1 stored).2.2 =
        (.unchanged, {}, some (parse doc))) := by
  constructor
  · intro hne heq
    simp [processOutages, hne, heq]
  · intro hne hget1 hput1 hget2 hdiff
    have hprev1 : getPreviousOutages flags1.getOk stored = some (stored.getD "") := by
      rw [hget1]; rfl
    have hneq : getPreviousOutages flags1.getOk stored ≠ some (parse doc) := by
      rw [hprev1]; exact fun hcon => hdiff (Option.some.inj hcon)
    have hstore : (processOutages parse header (some doc) flags1 stored).2.2 =
        some (parse doc) := by
      simp [processOutages, hne, hneq, hput1]
    have hprev2 : getPreviousOutages flags2.getOk (some (parse doc)) = some (parse doc) := by
      rw [hget2]; rfl
    refine ⟨?_, ?_⟩
    · simp [processOutages, hne, hneq]
    · rw [hstore]
      simp [processOutages, hne, hprev2]

/-- Witness for C3: concrete second run over an unchanged emergency page is
the no-change branch, and the only notification happened on the first run. -/
theorem c3_unchanged_is_idempotent_witness :
    (processOutages parseEmergencyOutages emergencyHeader (some sampleEmergencyDoc)
        ⟨true, true, true⟩ (some (parseEmergencyOutages sampleEmergencyDoc)) =
      (.unchanged, {}, some (parseEmergencyOutages sampleEmergencyDoc))) ∧
    ((processOutages parseEmergencyOutages emergencyHeader (some sampleEmergencyDoc)
        ⟨true, true, true⟩ none).2.1.notifySent =
      some ("<b>" ++ emergencyHeader ++ "</b>\n" ++ parseEmergencyOutages sampleEmergencyDoc)) ∧
    (processOutages parseEmergencyOutages emergencyHeader (some sampleEmergencyDoc)
        ⟨true, true, true⟩
        (processOutages parseEmergencyOutages emergencyHeader (some sampleEmergencyDoc)
          ⟨true, true, true⟩ none).2.2 =
      (.unchanged, {}, some (parseEmergencyOutages sampleEmergencyDoc))) := by
  have h1 := (c3_unchanged_is_idempotent parseEmergencyOutages emergencyHeader
    sampleEmergencyDoc ⟨true, true, true⟩ ⟨true, true, true⟩
    (some (parseEmergencyOutages sampleEmergencyDoc))).1 (by decide) rfl
  have h2 := (c3_unchanged_is_idempotent parseEmergencyOutages emergencyHeader
    sampleEmergencyDoc ⟨true, true, true⟩ ⟨true, true, true⟩ none).2
    (by decide) rfl rfl rfl (by decide)
  exact ⟨h1, h2.1, h2.2⟩

/-- Claim C4: empty extraction (no matching district section, or a matching
district with no qualifying rows, or an absent emergency table) makes the
run take the no-data branch: not a failure, with no store read mattering,
no notification and no store write; the src/index.js handler likewise
returns its 200 no-outages result with no effects. -/
theorem c4_empty_extraction_gives_nodata {α : Type} (parse : α → String) (header : String)
    (doc : α) (flags : IOFlags) (stored : Option String) (d : District) (pdoc : PlannedDoc) :
    ((∀ d2 ∈ pdoc.districts, jsStartsWith (jsTrim d2.headerText) DISTRICT_NAME = false) →
      parseOutages pdoc = "") ∧
    (plannedRows d = [] → parseOutages ⟨[d]⟩ = "") ∧
    (parseEmergencyOutages ⟨none⟩ = "") ∧
    (parse doc = "" →
      processOutages parse header (some doc) flags stored = (.noData, {}, stored)) ∧
    (∀ pd : PlannedDoc, Index.parseOutages pd = "" →
      Index.handler (some pd) flags stored = (⟨200, "No outages found."⟩, {}, stored)) := by
  refine ⟨?_, ?_, rfl, ?_, ?_⟩
  · intro hall
    obtain ⟨ds⟩ := pdoc
    exact parseOutages_no_match ds hall
  · intro hrows
    have hent : districtEntries d = [] := by
      simp only [districtEntries]
      rw [hrows]; rfl
    rw [parseOutages_single]
    split
    · rw [hent]; rfl
    · rfl
  · intro hempty
    simp [processOutages, hempty]
  · intro pd hpd
    simp [Index.handler, hpd]

/-- Witness for C4: a page without the target district, a matching district
with no qualifying rows, and an absent emergency table all lead to the
no-data branch with no effects. -/
theorem c4_empty_extraction_gives_nodata_witness :
    parseOutages docNoUrsus = "" ∧
    parseOutages ⟨[rowlessDistrict]⟩ = "" ∧
    processOutages parseEmergencyOutages emergencyHeader
        (some (⟨none⟩ : EmergencyDoc)) ⟨true, true, true⟩ none = (.noData, {}, none) ∧
    Index.handler (some docNoUrsus) ⟨true, true, true⟩ none =
      (⟨200, "No outages found."⟩, {}, none) := by
  have h := c4_empty_extraction_gives_nodata parseEmergencyOutages emergencyHeader
    (⟨none⟩ : EmergencyDoc) ⟨true, true, true⟩ none rowlessDistrict docNoUrsus
  exact ⟨h.1 (by decide), h.2.1 (by decide), h.2.2.2.1 rfl, h.2.2.2.2 docNoUrsus (by decide)⟩

/-- Claim C5 (amended): in the two-category handler a fetch failure ends
only that category's run with no effects and the unchanged store; the other
category's run is exactly what it would have been anyway, and the handler
always answers 200. (In the single-category src/index.js variant a fetch
failure instead makes the handler answer 500; see the counterexample.) -/
theorem c5_fetch_failure_contained (eDoc : Option EmergencyDoc) (pDoc : Option PlannedDoc)
    (eFlags pFlags : IOFlags) (eStored pStored : Option String) :
    handler none pDoc eFlags pFlags eStored pStored =
      (⟨200, "Check complete."⟩, (.fetchFailed, {}, eStored),
        processOutages parseOutages plannedHeader pDoc pFlags pStored) ∧
    handler eDoc none eFlags pFlags eStored pStored =
      (⟨200, "Check complete."⟩,
        processOutages parseEmergencyOutages emergencyHeader eDoc eFlags eStored,
        (.fetchFailed, {}, pStored)) ∧
    (handler eDoc pDoc eFlags pFlags eStored pStored).1 = ⟨200, "Check complete."⟩ :=
  ⟨rfl, rfl, rfl⟩

/-- Counterexample for C5: the claim also covers the src/index.js handler
(its cited lines 21-25), where a fetch failure produces statusCode 500, not
a success status. -/
theorem c5_counterexample :
    Index.handler none ⟨true, true, true⟩ none =
      (⟨500, "Failed to fetch HTML content."⟩, {}, none) ∧ (500 : Nat) ≠ 200 :=
  ⟨rfl, by decide⟩

/-- Claim C6: a failed notification send is non-fatal — sendTelegramMessage
swallows its transport error, so the run still reaches the persistence
step, the store advances to the current report, and the next run against
the same document takes the no-change branch. -/
theorem c6_notify_failure_still_persists {α : Type} (parse : α → String) (header : String)
    (doc : α) (flags1 flags2 : IOFlags) (stored : Option String)
    (hne : parse doc ≠ "")
    (hdiff : getPreviousOutages flags1.getOk stored ≠ some (parse doc))
    (hnotify : flags1.notifyOk = false)
    (hput : flags1.putOk = true) (hget2 : flags2.getOk = true) :
    (processOutages parse header (some doc) flags1 stored).1 = .updated ∧
    (processOutages parse header (some doc) flags1 stored).2.1.notifyOk = false ∧
    (processOutages parse header (some doc) flags1 stored).2.1.putAttempt =
      some (parse doc) ∧
    (processOutages parse header (some doc) flags1 stored).2.2 = some (parse doc) ∧
    (processOutages parse header (some doc) flags2
        (processOutages parse header (some doc) flags1 stored).2.2).1 = .unchanged := by
  have hprev2 : getPreviousOutages flags2.getOk (some (parse doc)) = some (parse doc) := by
    rw [hget2]; rfl
  refine ⟨?_, ?_, ?_, ?_, ?_⟩ <;>
    simp [processOutages, hne, hdiff, hput, hnotify, hprev2]

/-- Witness for C6: a concrete first run with the notification failing
still persists the report, and the concrete second run is the no-change
branch. -/
theorem c6_notify_failure_still_persists_witness :
    (processOutages parseEmergencyOutages emergencyHeader (some sampleEmergencyDoc)
        ⟨true, true, false⟩ none).2.2 = some (parseEmergencyOutages sampleEmergencyDoc) ∧
    (processOutages parseEmergencyOutages emergencyHeader (some sampleEmergencyDoc)
        ⟨true, true, true⟩
        (processOutages parseEmergencyOutages emergencyHeader (some sampleEmergencyDoc)
          ⟨true, true, false⟩ none).2.2).1 = .unchanged := by
  have h := c6_notify_failure_still_persists parseEmergencyOutages emergencyHeader
    sampleEmergencyDoc ⟨true, true, false⟩ ⟨true, true, true⟩ none
    (by decide) (by decide) rfl rfl rfl
  exact ⟨h.2.2.2.1, h.2.2.2.2⟩

/-- Claim C7: a row yields an entry only if it meets its category's cell
minimum — more than 4 cells for planned, at least 5 for emergency (the two
conditions coincide on naturals, as the source literally writes them) — and
an under-sized row is dropped without disturbing the entries of the
surrounding qualifying rows. -/
theorem c7_row_inclusion_by_cell_count :
    (∀ (h : String) (pre post : List Row) (bad : Row), bad.cells.length ≤ 4 →
      parseOutages ⟨[⟨h, pre ++ bad :: post⟩]⟩ = parseOutages ⟨[⟨h, pre ++ post⟩]⟩) ∧
    (∀ (pre post : List Row) (bad : Row), bad.cells.length < 5 →
      parseEmergencyOutages ⟨some (pre ++ bad :: post)⟩ =
        parseEmergencyOutages ⟨some (pre ++ post)⟩) ∧
    (∀ (d : District) (r : Row), r ∈ plannedRows d → r.cells.length > 4) ∧
    (∀ (rows : List Row) (r : Row), r ∈ emergencyRows rows → r.cells.length ≥ 5) := by
  refine ⟨?_, ?_, ?_, ?_⟩
  · intro h pre post bad hle
    have hcount : ¬ bad.cells.length > 4 := by omega
    have hbad : plannedRows ⟨h, pre ++ bad :: post⟩ = plannedRows ⟨h, pre ++ post⟩ := by
      by_cases hh : bad.headrow
      · simp [plannedRows, List.filter_append, List.filter_cons, hh]
      · simp [plannedRows, List.filter_append, List.filter_cons, hh, hcount]
    rw [parseOutages_single, parseOutages_single]
    simp only [districtEntries, hbad]
  · intro pre post bad hlt
    have hcount : ¬ bad.cells.length ≥ 5 := by omega
    have hbad : emergencyRows (pre ++ bad :: post) = emergencyRows (pre ++ post) := by
      simp [emergencyRows, List.filter_append, List.filter_cons, hcount]
    rw [parseEmergencyOutages_some, parseEmergencyOutages_some, hbad]
  · intro d r hmem
    simp [plannedRows, List.mem_filter] at hmem
    exact hmem.2.1
  · intro rows r hmem
    simp [emergencyRows, List.mem_filter] at hmem
    exact hmem.2

/-- Witness for C7: adding a concrete three-cell decoration row to concrete
qualifying rows changes neither parser's output, and the concrete
qualifying rows meet their category minimums. -/
theorem c7_row_inclusion_by_cell_count_witness :
    parseOutages ⟨[⟨"Warszawa URSUS", [rowA, shortRow]⟩]⟩ =
      parseOutages ⟨[⟨"Warszawa URSUS", [rowA]⟩]⟩ ∧
    parseEmergencyOutages ⟨some [sampleEmergencyRow, shortRow]⟩ =
      parseEmergencyOutages ⟨some [sampleEmergencyRow]⟩ ∧
    rowA.cells.length > 4 ∧
    sampleEmergencyRow.cells.length ≥ 5 := by
  have h := c7_row_inclusion_by_cell_count
  exact ⟨h.1 "Warszawa URSUS" [rowA] [] shortRow (by decide),
         h.2.1 [sampleEmergencyRow] [] shortRow (by decide),
         h.2.2.1 ⟨"Warszawa URSUS", [rowA, shortRow]⟩ rowA (by decide),
         h.2.2.2 [sampleEmergencyRow, shortRow] sampleEmergencyRow (by decide)⟩

/-- Claim C8: for an emergency row the time range renders as od-do when the
trimmed end indicator is nonempty and as the unknown-resolution phrase when
it is empty, with the w-toku status mapped to w-trakcie; both renderings
are functions of the cell texts alone, hence deterministic. The planned
renderer applies no status mapping: its output never mentions the status
cells at all. -/
theorem c8_time_range_and_status_rendering (a t r s : String) :
    (jsTrim r ≠ "" → emergencyEntry (rowCells a "" t r s) =
      "<strong>" ++ jsTrim a ++ "</strong> " ++
        ("(od " ++ jsTrim t ++ " do " ++ jsTrim r ++ ")") ++ " - " ++
        (if jsTrim s = "w toku" then "w trakcie" else jsTrim s) ++ "\n") ∧
    (jsTrim r = "" → emergencyEntry (rowCells a "" t r s) =
      "<strong>" ++ jsTrim a ++ "</strong> " ++
        ("(od " ++ jsTrim t ++ ", czas usunięcia nieznany)") ++ " - " ++
        (if jsTrim s = "w toku" then "w trakcie" else jsTrim s) ++ "\n") ∧
    (∀ x y : String, plannedEntry (rowCells a t r x y) =
      "<strong>" ++ jsTrim a ++ "</strong> (od " ++ jsTrim t ++ " do " ++ jsTrim r ++ ")\n") := by
  refine ⟨?_, ?_, ?_⟩
  · intro hr
    simp [emergencyEntry, rowCells, textCell, rowZbior, hr]
  · intro hr
    simp [emergencyEntry, rowCells, textCell, rowZbior, hr]
  · intro x y
    simp [plannedEntry, rowCells, textCell, rowZbior]

/-- Witness for C8: concrete renderings with an end indicator present,
absent, and with the planned renderer ignoring a w-toku status cell. -/
theorem c8_time_range_and_status_rendering_witness :
    emergencyEntry (rowCells "Popularna" "" "08:00" "16:00" "w toku") =
      "<strong>" ++ "Popularna" ++ "</strong> " ++
        ("(od " ++ "08:00" ++ " do " ++ "16:00" ++ ")") ++ " - " ++ "w trakcie" ++ "\n" ∧
    emergencyEntry (rowCells "Popularna" "" "08:00" "" "w toku") =
      "<strong>" ++ "Popularna" ++ "</strong> " ++
        ("(od " ++ "08:00" ++ ", czas usunięcia nieznany)") ++ " - " ++ "w trakcie" ++ "\n" ∧
    plannedEntry (rowCells "Popularna" "08:00" "16:00" "w toku" "w toku") =
      "<strong>" ++ "Popularna" ++ "</strong> (od " ++ "08:00" ++ " do " ++ "16:00" ++ ")\n" := by
  have h1 := (c8_time_range_and_status_rendering "Popularna" "08:00" "16:00" "w toku").1
    (by decide)
  have h2 := (c8_time_range_and_status_rendering "Popularna" "08:00" "" "w toku").2.1 rfl
  have h3 := (c8_time_range_and_status_rendering "Popularna" "08:00" "16:00" "w toku").2.2
    "w toku" "w toku"
  refine ⟨?_, ?_, ?_⟩
  · rw [h1]; decide
  · rw [h2]; decide
  · rw [h3]; decide

/-- Claim C9: a store write failure leaves the already-sent notification
standing (the put error is only logged, recorded here in the effect trace),
leaves the store unchanged, and therefore the next run against the same
document detects the same difference again and re-sends the notification. -/
theorem c9_write_failure_keeps_notification {α : Type} (parse : α → String) (header : String)
    (doc : α) (flags1 flags2 : IOFlags) (stored : Option String)
    (hne : parse doc ≠ "") (hget1 : flags1.getOk = true) (hget2 : flags2.getOk = true)
    (hdiff : stored.getD "" ≠ parse doc) (hput : flags1.putOk = false) :
    (processOutages parse header (some doc) flags1 stored).1 = .updated ∧
    (processOutages parse header (some doc) flags1 stored).2.1.notifySent =
      some ("<b>" ++ header ++ "</b>\n" ++ parse doc) ∧
    (processOutages parse header (some doc) flags1 stored).2.1.putAttempt =
      some (parse doc) ∧
    (processOutages parse header (some doc) flags1 stored).2.1.putOk = false ∧
    (processOutages parse header (some doc) flags1 stored).2.2 = stored ∧
    (processOutages parse header (some doc) flags2
        (processOutages parse header (some doc) flags1 stored).2.2).2.1.notifySent =
      some ("<b>" ++ header ++ "</b>\n" ++ parse doc) := by
  have hprev1 : getPreviousOutages flags1.getOk stored = some (stored.getD "") := by
    rw [hget1]; rfl
  have hneq1 : getPreviousOutages flags1.getOk stored ≠ some (parse doc) := by
    rw [hprev1]; exact fun hcon => hdiff (Option.some.inj hcon)
  have hprev2 : getPreviousOutages flags2.getOk stored = some (stored.getD "") := by
    rw [hget2]; rfl
  have hneq2 : getPreviousOutages flags2.getOk stored ≠ some (parse doc) := by
    rw [hprev2]; exact fun hcon => hdiff (Option.some.inj hcon)
  refine ⟨?_, ?_, ?_, ?_, ?_, ?_⟩ <;>
    simp [processOutages, hne, hneq1, hneq2, hput]

/-- Witness for C9: a concrete run whose put fails keeps its notification,
leaves the old store value, and the concrete next run notifies again. -/
theorem c9_write_failure_keeps_notification_witness :
    (processOutages parseEmergencyOutages emergencyHeader (some sampleEmergencyDoc)
        ⟨true, false, true⟩ (some "old")).2.1.notifySent =
      some ("<b>" ++ emergencyHeader ++ "</b>\n" ++ parseEmergencyOutages sampleEmergencyDoc) ∧
    (processOutages parseEmergencyOutages emergencyHeader (some sampleEmergencyDoc)
        ⟨true, false, true⟩ (some "old")).2.2 = some "old" ∧
    (processOutages parseEmergencyOutages emergencyHeader (some sampleEmergencyDoc)
        ⟨true, true, true⟩
        (processOutages parseEmergencyOutages emergencyHeader (some sampleEmergencyDoc)
          ⟨true, false, true⟩ (some "old")).2.2).2.1.notifySent =
      some ("<b>" ++ emergencyHeader ++ "</b>\n" ++ parseEmergencyOutages sampleEmergencyDoc) := by
  have h := c9_write_failure_keeps_notification parseEmergencyOutages emergencyHeader
    sampleEmergencyDoc ⟨true, false, true⟩ ⟨true, true, true⟩ (some "old")
    (by decide) rfl rfl (by decide) rfl
  exact ⟨h.2.1, h.2.2.2.2.1, h.2.2.2.2.2⟩

/-- Claim C10: in the src/index.js variant, a district whose header matches
the target prefix but none of whose rows qualify still yields the non-empty
header-only string, so the handler never takes its no-data branch for such
a page: it reads the store, compares, and (from an empty store) notifies
and persists the header-only report. -/
theorem c10_headeronly_district_is_reportable (d : District) (flags : IOFlags)
    (hmatch : jsStartsWith (jsTrim d.headerText) DISTRICT_NAME = true)
    (hrows : plannedRows d = []) (hget : flags.getOk = true) :
    Index.parseOutages ⟨[d]⟩ = "Wyłączenia planowane:\n\n" ∧
    (∀ stored : Option String,
      (Index.handler (some ⟨[d]⟩) flags stored).1.body ≠ "No outages found.") ∧
    Index.handler (some ⟨[d]⟩) flags none =
      (⟨200, "New water outage data found, notified, and saved."⟩,
       { notifySent := some "Wyłączenia planowane:\n\n", notifyOk := flags.notifyOk,
         putAttempt := some "Wyłączenia planowane:\n\n", putOk := flags.putOk },
       if flags.putOk then some "Wyłączenia planowane:\n\n" else none) := by
  have hne : ("Wyłączenia planowane:\n\n" : String) ≠ "" := by decide
  have hparse : Index.parseOutages ⟨[d]⟩ = "Wyłączenia planowane:\n\n" := by
    rw [index_parseOutages_single, if_pos hmatch, hrows]
    rfl
  refine ⟨hparse, ?_, ?_⟩
  · intro stored
    simp only [Index.handler, hparse]
    rw [if_neg hne]
    split
    · show ("No new water outages." : String) ≠ "No outages found."
      decide
    · show ("New water outage data found, notified, and saved." : String) ≠ "No outages found."
      decide
  · have hprev : getPreviousOutages flags.getOk none = some "" := by rw [hget]; rfl
    have hdiff : (some "" : Option String) ≠ some "Wyłączenia planowane:\n\n" := by decide
    simp [Index.handler, hparse, hne, hprev, hdiff]

/-- Witness for C10: the concrete matching district with only non-qualifying
rows produces the header-only report, and the concrete run notifies and
persists it. -/
theorem c10_headeronly_district_is_reportable_witness :
    Index.parseOutages ⟨[rowlessDistrict]⟩ = "Wyłączenia planowane:\n\n" ∧
    Index.handler (some ⟨[rowlessDistrict]⟩) ⟨true, true, true⟩ none =
      (⟨200, "New water outage data found, notified, and saved."⟩,
       { notifySent := some "Wyłączenia planowane:\n\n", notifyOk := true,
         putAttempt := some "Wyłączenia planowane:\n\n", putOk := true },
       some "Wyłączenia planowane:\n\n") := by
  have h := c10_headeronly_district_is_reportable rowlessDistrict ⟨true, true, true⟩
    (by decide) (by decide) rfl
  exact ⟨h.1, h.2.2⟩

end Mpwik
